import Mathlib

/-!
Verification of the chicken-coop door controller
(`Code/Arduino_pro_mini_chicken_coop/Arduino_pro_mini_chicken_coop.ino`).

The firmware is embedded shallowly:
* calendar timestamps become a day-index plus seconds-of-day (`DT`), with
  `DT.unixtime` mirroring `DateTime::unixtime()`;
* the build-time constants (`OPEN_HH`, `CLOSE_HH`, `CLOSE_DEG`, `REV_MS`,
  `MAX_TURNS`, `FWD_CMD`) become a `Config` record so theorems quantify over
  well-formed schedules, with the source defaults available as `cfgDefault`;
* the two motion routines `openDoor` / `closeDoor` become functions from a
  time-indexed limit-switch reading to an explicit event trace (`Ev`) plus
  the returned boolean, so power-gating, servo commands and delays are
  observable;
* the power-up correction block in `setup()` becomes `reconcile`;
* one pass of `loop()` becomes `loopStep`, a function on a small system
  state that also emits the list of performed top-level actions.
-/

namespace ChickenDoor

/-- Calendar timestamp: an abstract day index plus seconds elapsed in that
day.  `DateTime(y,m,d,h,mi,s)` of the firmware maps to
`⟨dayIndex(y,m,d), h*3600 + mi*60 + s⟩`. -/
structure DT where
  day : Nat
  sod : Nat
deriving DecidableEq, Repr

/-- Mirrors `DateTime::unixtime()`: seconds since the epoch. -/
def DT.unixtime (d : DT) : Nat := d.day * 86400 + d.sod

/-- A timestamp is valid when its seconds-of-day field is in range. -/
def DT.Valid (d : DT) : Prop := d.sod < 86400

instance (d : DT) : Decidable d.Valid := by
  unfold DT.Valid; infer_instance

/-- The user-tunable constants at the top of the sketch. -/
structure Config where
  openHH : Nat
  openMM : Nat
  closeHH : Nat
  closeMM : Nat
  closeDeg : Nat
  revMs : Nat
  maxTurns : Nat
  fwdCmd : Nat
deriving DecidableEq, Repr

/-- `OPEN_HH*60 + OPEN_MM`, the open time in minutes of day. -/
def Config.openMin (c : Config) : Nat := c.openHH * 60 + c.openMM

/-- `CLOSE_HH*60 + CLOSE_MM`, the close time in minutes of day. -/
def Config.closeMin (c : Config) : Nat := c.closeHH * 60 + c.closeMM

/-- Well-formed build config: hour/minute fields in range and the open time
strictly before the close time in minutes of day. -/
def Config.WF (c : Config) : Prop :=
  c.openHH < 24 ∧ c.openMM < 60 ∧ c.closeHH < 24 ∧ c.closeMM < 60 ∧
    c.openMin < c.closeMin

instance (c : Config) : Decidable c.WF := by
  unfold Config.WF; infer_instance

/-- The constants as set in the source: open 08:00, close 22:00,
`CLOSE_DEG = 2160`, `REV_MS = 900`, `MAX_TURNS = 6`, `FWD_CMD = 0`. -/
def cfgDefault : Config :=
  { openHH := 8, openMM := 0, closeHH := 22, closeMM := 0,
    closeDeg := 2160, revMs := 900, maxTurns := 6, fwdCmd := 0 }

/-- The `today` lambda in `scheduleNextWake`:
`DateTime(now.year(), now.month(), now.day(), h, m, 0)`. -/
def todayAt (now : DT) (h m : Nat) : DT := ⟨now.day, h * 3600 + m * 60⟩

/-- `scheduleNextWake()` of the sketch, as the pure timestamp computation it
programs into Alarm-1: today's open time if `now` is before it, else
today's close time if `now` is before it, else tomorrow (`now + 1 day`) at
the open hour/minute with zero seconds. -/
def scheduleNextWake (cfg : Config) (now : DT) : DT :=
  if now.unixtime < (todayAt now cfg.openHH cfg.openMM).unixtime then
    todayAt now cfg.openHH cfg.openMM
  else if now.unixtime < (todayAt now cfg.closeHH cfg.closeMM).unixtime then
    todayAt now cfg.closeHH cfg.closeMM
  else
    ⟨now.day + 1, cfg.openHH * 3600 + cfg.openMM * 60⟩

/-- C1: for every valid `now` and well-formed config, `scheduleNextWake`
selects exactly one of three branches — today's open time if `now` is before
it, else today's close time if `now` is before it, else tomorrow's open time
with zero seconds — and the selected timestamp is strictly greater than
`now`. -/
theorem scheduleNextWake_correct (cfg : Config) (now : DT)
    (hWF : cfg.WF) (hV : now.Valid) :
    (now.unixtime < (todayAt now cfg.openHH cfg.openMM).unixtime →
      scheduleNextWake cfg now = todayAt now cfg.openHH cfg.openMM) ∧
    (¬ now.unixtime < (todayAt now cfg.openHH cfg.openMM).unixtime →
      now.unixtime < (todayAt now cfg.closeHH cfg.closeMM).unixtime →
      scheduleNextWake cfg now = todayAt now cfg.closeHH cfg.closeMM) ∧
    (¬ now.unixtime < (todayAt now cfg.openHH cfg.openMM).unixtime →
      ¬ now.unixtime < (todayAt now cfg.closeHH cfg.closeMM).unixtime →
      scheduleNextWake cfg now = ⟨now.day + 1, cfg.openHH * 3600 + cfg.openMM * 60⟩) ∧
    now.unixtime < (scheduleNextWake cfg now).unixtime := by
  simp only [DT.Valid] at hV
  by_cases h1 : now.unixtime < (todayAt now cfg.openHH cfg.openMM).unixtime
  · refine ⟨fun _ => ?_, fun hc _ => absurd h1 hc, fun hc _ => absurd h1 hc, ?_⟩
    · simp [scheduleNextWake, h1]
    · simp only [scheduleNextWake, if_pos h1]
      exact h1
  · by_cases h2 : now.unixtime < (todayAt now cfg.closeHH cfg.closeMM).unixtime
    · refine ⟨fun hc => absurd hc h1, fun _ _ => ?_, fun _ hc => absurd h2 hc, ?_⟩
      · simp [scheduleNextWake, h1, h2]
      · simp only [scheduleNextWake, if_neg h1, if_pos h2]
        exact h2
    · refine ⟨fun hc => absurd hc h1, fun _ hc => absurd hc h2, fun _ _ => ?_, ?_⟩
      · simp [scheduleNextWake, h1, h2]
      · simp only [scheduleNextWake, if_neg h1, if_neg h2]
        simp only [DT.unixtime, todayAt] at h1 h2 ⊢
        omega

/-- Concrete instance of `scheduleNextWake_correct` at the build config and
a mid-morning timestamp (08:20:00 on day 0): the next wake is today's close
time. -/
theorem scheduleNextWake_correct_witness :
    cfgDefault.WF ∧ (DT.mk 0 30000).Valid ∧
      DT.unixtime ⟨0, 30000⟩ < (scheduleNextWake cfgDefault ⟨0, 30000⟩).unixtime :=
  ⟨by decide, by decide,
    (scheduleNextWake_correct cfgDefault ⟨0, 30000⟩ (by decide) (by decide)).2.2.2⟩

/-- `enum DoorState { OPEN, CLOSED }`. -/
inductive DoorState where
  | OPEN : DoorState
  | CLOSED : DoorState
deriving DecidableEq, Repr

/-- Which motion routine a code path invokes. -/
inductive Motion where
  | openM : Motion
  | closeM : Motion
deriving DecidableEq, Repr

/-- `bool daytime = (nowMin >= openMin) && (nowMin < closMin);` from the
power-up correction block in `setup()`. -/
def daytime (cfg : Config) (nowMin : Nat) : Bool :=
  decide (cfg.openMin ≤ nowMin) && decide (nowMin < cfg.closeMin)

/-- The power-up door correction block of `setup()` (lines 100-119): which
motion it invokes, if any, and the `gateState` it leaves behind.  `limitP`
is the `limitPressed()` reading at the branch. -/
def reconcile (cfg : Config) (nowMin : Nat) (limitP : Bool) :
    Option Motion × DoorState :=
  if daytime cfg nowMin then
    (if limitP then none else some Motion.openM, DoorState.OPEN)
  else
    (if limitP then some Motion.closeM else none, DoorState.CLOSED)

/-- C2: the startup reconciler computes daytime as the half-open interval
`[openMin, closeMin)` on minutes of day; it invokes the open motion exactly
when daytime holds and the limit switch is not pressed, the close motion
exactly when daytime fails and the limit switch is pressed, no motion
otherwise, and sets the door state to OPEN exactly in the daytime branch. -/
theorem reconcile_correct (cfg : Config) (nowMin : Nat) (limitP : Bool) :
    (daytime cfg nowMin = true ↔ cfg.openMin ≤ nowMin ∧ nowMin < cfg.closeMin) ∧
    ((reconcile cfg nowMin limitP).1 = some Motion.openM ↔
      daytime cfg nowMin = true ∧ limitP = false) ∧
    ((reconcile cfg nowMin limitP).1 = some Motion.closeM ↔
      daytime cfg nowMin = false ∧ limitP = true) ∧
    ((reconcile cfg nowMin limitP).1 = none ↔
      (daytime cfg nowMin = true) = (limitP = true)) ∧
    ((reconcile cfg nowMin limitP).2 = DoorState.OPEN ↔ daytime cfg nowMin = true) := by
  refine ⟨by simp [daytime], ?_⟩
  cases h : daytime cfg nowMin <;> cases limitP <;>
    simp [reconcile, h]

/-- Observable actuator events of a motion routine, in program order:
`powerServo(true/false)`, `door.write(cmd)`, `delay(ms)`. -/
inductive Ev where
  | powerOn : Ev
  | powerOff : Ev
  | servo : Nat → Ev
  | wait : Nat → Ev
deriving DecidableEq, Repr

/-- What a motion routine did: its event trace, its boolean return value,
and the time (ms) at which it returns. -/
structure MotionResult where
  events : List Ev
  ok : Bool
  tEnd : Nat
deriving DecidableEq, Repr

/-- The busy-wait `while (!limitPressed() && millis() - t0 < timeout);`,
polled at 1 ms granularity: returns the exit time, i.e. the first instant
at which the switch reads pressed, or `t + fuel` when it never does within
the window. -/
def pollLimit (limit : Nat → Bool) : Nat → Nat → Nat
  | t, 0 => t
  | t, fuel + 1 => if limit t then t else pollLimit limit (t + 1) fuel

/-- `openDoor()` of the sketch: early-return success if the switch is
already pressed; otherwise power the servo, settle 200 ms, command
`FWD_CMD`, busy-wait on the switch up to `MAX_TURNS * REV_MS` ms, command
neutral, settle 200 ms, de-power, and return the final switch reading.
`limit t` is the `limitPressed()` reading at time `t` (ms); `t0` is the
entry time. -/
def openDoor (cfg : Config) (limit : Nat → Bool) (t0 : Nat) : MotionResult :=
  if limit t0 then { events := [], ok := true, tEnd := t0 }
  else
    let tStart := t0 + 200
    let timeout := cfg.maxTurns * cfg.revMs
    let tExit := pollLimit limit tStart timeout
    { events := [Ev.powerOn, Ev.wait 200, Ev.servo cfg.fwdCmd,
        Ev.wait (tExit - tStart), Ev.servo 90, Ev.wait 200, Ev.powerOff],
      ok := limit (tExit + 200), tEnd := tExit + 200 }

/-- `closeDoor()` of the sketch: unconditionally power the servo, settle
200 ms, command `180 - FWD_CMD`, delay `CLOSE_DEG * REV_MS / 360` ms,
command neutral, settle 200 ms, de-power, and return the negated final
switch reading. -/
def closeDoor (cfg : Config) (limit : Nat → Bool) (t0 : Nat) : MotionResult :=
  let runMs := cfg.closeDeg * cfg.revMs / 360
  let tEnd := t0 + 200 + runMs + 200
  { events := [Ev.powerOn, Ev.wait 200, Ev.servo (180 - cfg.fwdCmd),
      Ev.wait runMs, Ev.servo 90, Ev.wait 200, Ev.powerOff],
    ok := ! limit tEnd, tEnd := tEnd }

/-- C3: `closeDoor` always produces the same fixed event trace — drive for
exactly `closeDeg * revMs / 360` ms with no limit-switch read during the
motion (the trace and exit time are independent of the switch) — and it
returns failure if and only if the switch still reads pressed afterward. -/
theorem closeDoor_correct (cfg : Config) (limit : Nat → Bool) (t0 : Nat) :
    (closeDoor cfg limit t0).events =
      [Ev.powerOn, Ev.wait 200, Ev.servo (180 - cfg.fwdCmd),
        Ev.wait (cfg.closeDeg * cfg.revMs / 360), Ev.servo 90, Ev.wait 200,
        Ev.powerOff] ∧
    (closeDoor cfg limit t0).tEnd = t0 + 200 + cfg.closeDeg * cfg.revMs / 360 + 200 ∧
    ((closeDoor cfg limit t0).ok = false ↔
      limit (t0 + 200 + cfg.closeDeg * cfg.revMs / 360 + 200) = true) := by
  refine ⟨rfl, rfl, ?_⟩
  simp [closeDoor]

/-- When the switch never reads pressed, the busy-wait runs out its whole
window. -/
theorem pollLimit_never (limit : Nat → Bool) (h : ∀ t, limit t = false) :
    ∀ fuel t, pollLimit limit t fuel = t + fuel := by
  intro fuel
  induction fuel with
  | zero => intro t; simp [pollLimit]
  | succ n ih =>
      intro t
      simp only [pollLimit, h t, Bool.false_eq_true, if_false, ih (t + 1)]
      omega

/-- C4: with a limit switch that never triggers, `openDoor` returns failure
after exactly `maxTurns * revMs` ms of supervised waiting, and its trace
ends with the neutral command and de-powering. -/
theorem openDoor_timeout (cfg : Config) (limit : Nat → Bool) (t0 : Nat)
    (h : ∀ t, limit t = false) :
    openDoor cfg limit t0 =
      { events := [Ev.powerOn, Ev.wait 200, Ev.servo cfg.fwdCmd,
          Ev.wait (cfg.maxTurns * cfg.revMs), Ev.servo 90, Ev.wait 200,
          Ev.powerOff],
        ok := false, tEnd := t0 + 200 + cfg.maxTurns * cfg.revMs + 200 } := by
  simp [openDoor, h, pollLimit_never limit h]

/-- Concrete instance of `openDoor_timeout` at the build config, entry time
0 and a dead switch: failure is returned at `0 + 200 + 6*900 + 200` ms with
the supervised wait of `6*900` ms in the trace. -/
theorem openDoor_timeout_witness :
    (∀ t, (fun _ : Nat => false) t = false) ∧
      openDoor cfgDefault (fun _ => false) 0 =
        { events := [Ev.powerOn, Ev.wait 200, Ev.servo cfgDefault.fwdCmd,
            Ev.wait (cfgDefault.maxTurns * cfgDefault.revMs), Ev.servo 90,
            Ev.wait 200, Ev.powerOff],
          ok := false,
          tEnd := 0 + 200 + cfgDefault.maxTurns * cfgDefault.revMs + 200 } :=
  ⟨fun _ => rfl, openDoor_timeout cfgDefault (fun _ => false) 0 (fun _ => rfl)⟩

/-- C5: when the limit switch already reads pressed at entry, `openDoor`
returns success immediately with an empty event trace — in particular no
`powerServo(true)` and no motion command. -/
theorem openDoor_already_open (cfg : Config) (limit : Nat → Bool) (t0 : Nat)
    (h : limit t0 = true) :
    openDoor cfg limit t0 = { events := [], ok := true, tEnd := t0 } ∧
      Ev.powerOn ∉ (openDoor cfg limit t0).events := by
  simp [openDoor, h]

/-- Concrete instance of `openDoor_already_open`: switch pressed at entry
time 0 under the build config. -/
theorem openDoor_already_open_witness :
    (fun _ : Nat => true) 0 = true ∧
      openDoor cfgDefault (fun _ => true) 0 = { events := [], ok := true, tEnd := 0 } :=
  ⟨rfl, (openDoor_already_open cfgDefault (fun _ => true) 0 rfl).1⟩

/-- C10: `closeDoor` has no already-closed guard: even when the limit
switch reads released the whole time (door already down), it still powers
the servo, drives the full fixed-duration motion, and returns true because
the switch reads released afterward. -/
theorem closeDoor_no_guard (cfg : Config) (limit : Nat → Bool) (t0 : Nat)
    (h : ∀ t, limit t = false) :
    (closeDoor cfg limit t0).events =
      [Ev.powerOn, Ev.wait 200, Ev.servo (180 - cfg.fwdCmd),
        Ev.wait (cfg.closeDeg * cfg.revMs / 360), Ev.servo 90, Ev.wait 200,
        Ev.powerOff] ∧
    Ev.powerOn ∈ (closeDoor cfg limit t0).events ∧
    (closeDoor cfg limit t0).ok = true := by
  simp [closeDoor, h]

/-- Concrete instance of `closeDoor_no_guard` at the build config, entry
time 0 and a switch that reads released throughout. -/
theorem closeDoor_no_guard_witness :
    (∀ t, (fun _ : Nat => false) t = false) ∧
      Ev.powerOn ∈ (closeDoor cfgDefault (fun _ => false) 0).events ∧
      (closeDoor cfgDefault (fun _ => false) 0).ok = true :=
  ⟨fun _ => rfl, (closeDoor_no_guard cfgDefault (fun _ => false) 0 (fun _ => rfl)).2⟩

/-- The mutable globals read and written by one pass of `loop()`:
`alarmFlag`, `gateState`, and the latched fault indicator (LED D13). -/
structure SysState where
  alarmFlag : Bool
  gateState : DoorState
  fault : Bool
deriving DecidableEq, Repr

/-- Top-level actions a pass of `loop()` can perform, in program order. -/
inductive Action where
  | openMotion : Action
  | closeMotion : Action
  | faultReport : Action
  | reschedule : Action
  | sleep : Action
deriving DecidableEq, Repr

/-- The environment of one wake: the RTC reading (`now.hour()`,
`now.minute()`) and the boolean results `openDoor()` / `closeDoor()` would
return if invoked on this pass. -/
structure WakeEnv where
  hour : Nat
  minute : Nat
  openOk : Bool
  closeOk : Bool
deriving DecidableEq, Repr

/-- One pass of `loop()`: early return on a clear `alarmFlag`; otherwise
clear the flag, dispatch on an exact hour/minute match against the open and
close times, latch the fault LED when the invoked motion failed, then
recompute the alarm (`scheduleNextWake`) and go to sleep. -/
def loopStep (cfg : Config) (e : WakeEnv) (s : SysState) :
    SysState × List Action :=
  if s.alarmFlag = false then (s, [])
  else
    let s1 : SysState := { s with alarmFlag := false }
    let d : Bool × SysState × List Action :=
      if e.hour = cfg.openHH ∧ e.minute = cfg.openMM then
        (e.openOk, { s1 with gateState := DoorState.OPEN }, [Action.openMotion])
      else if e.hour = cfg.closeHH ∧ e.minute = cfg.closeMM then
        (e.closeOk, { s1 with gateState := DoorState.CLOSED }, [Action.closeMotion])
      else
        (true, s1, [])
    let s2 : SysState := if d.1 = false then { d.2.1 with fault := true } else d.2.1
    let acts : List Action :=
      if d.1 = false then d.2.2 ++ [Action.faultReport] else d.2.2
    (s2, acts ++ [Action.reschedule, Action.sleep])

/-- C6: on a wake with `alarmFlag` set and a well-formed config, the
dispatch matches hour:minute exactly: an open-time match invokes the open
motion exactly once and sets the state OPEN, a close-time match invokes the
close motion exactly once and sets the state CLOSED, no match invokes no
motion; in every case the alarm flag is cleared. -/
theorem loop_dispatch (cfg : Config) (e : WakeEnv) (s : SysState)
    (hWF : cfg.WF) (hA : s.alarmFlag = true) :
    (loopStep cfg e s).1.alarmFlag = false ∧
    (e.hour = cfg.openHH ∧ e.minute = cfg.openMM →
      ((loopStep cfg e s).2.count Action.openMotion = 1 ∧
        (loopStep cfg e s).2.count Action.closeMotion = 0 ∧
        (loopStep cfg e s).1.gateState = DoorState.OPEN)) ∧
    (e.hour = cfg.closeHH ∧ e.minute = cfg.closeMM →
      ((loopStep cfg e s).2.count Action.closeMotion = 1 ∧
        (loopStep cfg e s).2.count Action.openMotion = 0 ∧
        (loopStep cfg e s).1.gateState = DoorState.CLOSED)) ∧
    (¬(e.hour = cfg.openHH ∧ e.minute = cfg.openMM) →
      ¬(e.hour = cfg.closeHH ∧ e.minute = cfg.closeMM) →
      ((loopStep cfg e s).2.count Action.openMotion = 0 ∧
        (loopStep cfg e s).2.count Action.closeMotion = 0)) := by
  obtain ⟨hb1, hb2, hb3, hb4, hlt⟩ := hWF
  simp only [Config.openMin, Config.closeMin] at hlt
  by_cases ho : e.hour = cfg.openHH ∧ e.minute = cfg.openMM
  · have hc : ¬(e.hour = cfg.closeHH ∧ e.minute = cfg.closeMM) := by
      rintro ⟨hh, hm⟩
      obtain ⟨hh2, hm2⟩ := ho
      omega
    cases hOk : e.openOk <;>
      simp [loopStep, hA, ho, hc, hOk, List.count_cons] <;> omega
  · by_cases hc : e.hour = cfg.closeHH ∧ e.minute = cfg.closeMM
    · have hne : ¬(cfg.closeHH = cfg.openHH ∧ cfg.closeMM = cfg.openMM) := by
        rintro ⟨g1, g2⟩
        omega
      cases hOk : e.closeOk <;>
        simp [loopStep, hA, ho, hc, hne, hOk, List.count_cons]
    · simp [loopStep, hA, ho, hc, List.count_cons]

/-- Concrete instance of `loop_dispatch`: a wake at exactly 22:00 under the
build config closes the door exactly once and leaves the state CLOSED. -/
theorem loop_dispatch_witness :
    cfgDefault.WF ∧
      (SysState.mk true DoorState.OPEN false).alarmFlag = true ∧
      ((22 = cfgDefault.closeHH ∧ 0 = cfgDefault.closeMM →
        ((loopStep cfgDefault ⟨22, 0, true, true⟩ ⟨true, DoorState.OPEN, false⟩).2.count
            Action.closeMotion = 1 ∧
          (loopStep cfgDefault ⟨22, 0, true, true⟩ ⟨true, DoorState.OPEN, false⟩).2.count
            Action.openMotion = 0 ∧
          (loopStep cfgDefault ⟨22, 0, true, true⟩ ⟨true, DoorState.OPEN, false⟩).1.gateState =
            DoorState.CLOSED))) :=
  ⟨by decide, rfl,
    (loop_dispatch cfgDefault ⟨22, 0, true, true⟩ ⟨true, DoorState.OPEN, false⟩
      (by decide) rfl).2.2.1⟩

/-- Counterexample for C7 as stated: on a pass of `loop()` with `alarmFlag`
false the sleep entry (`goToSleep()`) is not executed — the spurious path
returns before it, so the pass does not re-enter the SLEEPING state. -/
theorem loop_spurious_no_sleep :
    Action.sleep ∉
      (loopStep cfgDefault ⟨12, 0, true, true⟩ ⟨false, DoorState.CLOSED, false⟩).2 := by
  decide

/-- C7 amended: on a pass of `loop()` with `alarmFlag` false, the pass
performs no action at all — no schedule recompute, no motion, no fault —
and leaves the state unchanged; it returns without executing the sleep
entry, idling until the flag is set. -/
theorem loop_spurious_wake (cfg : Config) (e : WakeEnv) (s : SysState)
    (hA : s.alarmFlag = false) :
    loopStep cfg e s = (s, []) := by
  simp [loopStep, hA]

/-- Concrete instance of `loop_spurious_wake` at the build config. -/
theorem loop_spurious_wake_witness :
    (SysState.mk false DoorState.CLOSED false).alarmFlag = false ∧
      loopStep cfgDefault ⟨8, 0, true, true⟩ ⟨false, DoorState.CLOSED, false⟩ =
        (⟨false, DoorState.CLOSED, false⟩, []) :=
  ⟨rfl, loop_spurious_wake cfgDefault ⟨8, 0, true, true⟩ ⟨false, DoorState.CLOSED, false⟩ rfl⟩

/-- C8: a motion failure never aborts the wake cycle: on every pass with
`alarmFlag` set, whatever the motion outcomes, the action list ends with
the schedule recompute followed by the sleep entry, and a failed motion
only latches the fault indicator and emits the fault report. -/
theorem loop_fault_nonblocking (cfg : Config) (e : WakeEnv) (s : SysState)
    (hA : s.alarmFlag = true) :
    (∃ pre, (loopStep cfg e s).2 = pre ++ [Action.reschedule, Action.sleep]) ∧
    (e.hour = cfg.openHH ∧ e.minute = cfg.openMM ∧ e.openOk = false →
      Action.faultReport ∈ (loopStep cfg e s).2 ∧ (loopStep cfg e s).1.fault = true) ∧
    (¬(e.hour = cfg.openHH ∧ e.minute = cfg.openMM) →
      e.hour = cfg.closeHH ∧ e.minute = cfg.closeMM ∧ e.closeOk = false →
      Action.faultReport ∈ (loopStep cfg e s).2 ∧ (loopStep cfg e s).1.fault = true) := by
  by_cases ho : e.hour = cfg.openHH ∧ e.minute = cfg.openMM
  · cases hOk : e.openOk
    · refine ⟨⟨[Action.openMotion, Action.faultReport], ?_⟩, fun _ => ?_, fun hn _ => absurd ho hn⟩ <;>
        simp [loopStep, hA, ho, hOk]
    · refine ⟨⟨[Action.openMotion], ?_⟩, fun hf => absurd hf.2.2 (by simp),
        fun hn _ => absurd ho hn⟩
      simp [loopStep, hA, ho, hOk]
  · by_cases hc : e.hour = cfg.closeHH ∧ e.minute = cfg.closeMM
    · have hne : ¬(cfg.closeHH = cfg.openHH ∧ cfg.closeMM = cfg.openMM) := by
        rintro ⟨g1, g2⟩
        exact ho ⟨hc.1.trans g1, hc.2.trans g2⟩
      cases hOk : e.closeOk
      · refine ⟨⟨[Action.closeMotion, Action.faultReport], ?_⟩, fun hf => absurd ⟨hf.1, hf.2.1⟩ ho,
          fun _ _ => ?_⟩ <;>
          simp [loopStep, hA, ho, hc, hne, hOk]
      · refine ⟨⟨[Action.closeMotion], ?_⟩, fun hf => absurd ⟨hf.1, hf.2.1⟩ ho,
          fun _ hf => absurd hf.2.2 (by simp)⟩
        simp [loopStep, hA, ho, hc, hne, hOk]
    · refine ⟨⟨[], ?_⟩, fun hf => absurd ⟨hf.1, hf.2.1⟩ ho, fun _ hf => absurd ⟨hf.1, hf.2.1⟩ hc⟩
      simp [loopStep, hA, ho, hc]

/-- Concrete instance of `loop_fault_nonblocking`: a wake at the close time
whose close motion fails still reschedules and sleeps. -/
theorem loop_fault_nonblocking_witness :
    (SysState.mk true DoorState.OPEN false).alarmFlag = true ∧
      (∃ pre, (loopStep cfgDefault ⟨22, 0, true, false⟩ ⟨true, DoorState.OPEN, false⟩).2 =
        pre ++ [Action.reschedule, Action.sleep]) :=
  ⟨rfl,
    (loop_fault_nonblocking cfgDefault ⟨22, 0, true, false⟩ ⟨true, DoorState.OPEN, false⟩ rfl).1⟩

/-- The wake loop iterated over a list of wake environments. -/
def runLoop (cfg : Config) : List WakeEnv → SysState → SysState
  | [], s => s
  | e :: es, s => runLoop cfg es (loopStep cfg e s).1

/-- One pass of `loop()` never clears the fault indicator. -/
theorem loopStep_fault_mono (cfg : Config) (e : WakeEnv) (s : SysState)
    (h : s.fault = true) : (loopStep cfg e s).1.fault = true := by
  by_cases hA : s.alarmFlag = false
  · simp [loopStep, hA, h]
  · by_cases ho : e.hour = cfg.openHH ∧ e.minute = cfg.openMM
    · cases hOk : e.openOk <;> simp [loopStep, hA, ho, hOk, h]
    · by_cases hc : e.hour = cfg.closeHH ∧ e.minute = cfg.closeMM
      · have hne : ¬(cfg.closeHH = cfg.openHH ∧ cfg.closeMM = cfg.openMM) := by
          rintro ⟨g1, g2⟩
          exact ho ⟨hc.1.trans g1, hc.2.trans g2⟩
        cases hOk : e.closeOk <;> simp [loopStep, hA, ho, hc, hne, hOk, h]
      · simp [loopStep, hA, ho, hc, h]

/-- C9: the fault indicator is a latch: once set, it remains set after any
number of further wake-loop passes — no operation of the loop ever clears
it. -/
theorem fault_latched (cfg : Config) (es : List WakeEnv) (s : SysState)
    (h : s.fault = true) : (runLoop cfg es s).fault = true := by
  induction es generalizing s with
  | nil => simpa [runLoop] using h
  | cons e es ih =>
      simp only [runLoop]
      exact ih _ (loopStep_fault_mono cfg e s h)

/-- Concrete instance of `fault_latched`: a latched fault survives a
two-wake run under the build config. -/
theorem fault_latched_witness :
    (SysState.mk true DoorState.OPEN true).fault = true ∧
      (runLoop cfgDefault [⟨22, 0, true, true⟩, ⟨8, 0, false, true⟩]
        ⟨true, DoorState.OPEN, true⟩).fault = true :=
  ⟨rfl,
    fault_latched cfgDefault [⟨22, 0, true, true⟩, ⟨8, 0, false, true⟩]
      ⟨true, DoorState.OPEN, true⟩ rfl⟩

end ChickenDoor
